import Mathlib

/-
Verification of the Tauri host-process supervisor in
`src/desktop/src-tauri/src/lib.rs` (Nano_Banana_Pro_Web).

The Rust source is shallowly embedded below:
* the Log Watcher's per-event processing (the `async move` loop in `run`)
  becomes a pure step function on an explicit `WatcherState`, with the
  sequential side effects of a step recorded as an ordered `Action` trace;
* `copy_image_to_clipboard` becomes a pure function over an explicit
  environment record (`ClipEnv`) supplying the filesystem, image decoder and
  clipboard results that the Rust code obtains from the OS, returning the
  `Result` together with an ordered trace of the external operations
  performed.
Machine integers (`u16`) are modelled as `Nat` with the explicit bound 65535
where the Rust parse would overflow.
-/

set_option autoImplicit false

namespace NanoBanana

/-! ## Character-level string helpers, translated from the Rust std behaviour -/

/-- Whitespace predicate of Rust `char::is_whitespace` (the Unicode
`White_Space` property), used by `str::trim`. -/
def rustIsWhitespace (c : Char) : Bool :=
  c.toNat = 0x09 || c.toNat = 0x0A || c.toNat = 0x0B || c.toNat = 0x0C ||
  c.toNat = 0x0D || c.toNat = 0x20 || c.toNat = 0x85 || c.toNat = 0xA0 ||
  c.toNat = 0x1680 || (0x2000 ≤ c.toNat && c.toNat ≤ 0x200A) ||
  c.toNat = 0x2028 || c.toNat = 0x2029 || c.toNat = 0x202F ||
  c.toNat = 0x205F || c.toNat = 0x3000

/-- Rust `str::trim`: drop leading and trailing whitespace. -/
def trimChars (cs : List Char) : List Char :=
  ((cs.dropWhile rustIsWhitespace).reverse.dropWhile rustIsWhitespace).reverse

/-- Rust `str::split('=')`: the list of `=`-separated segments, in order.
A split of any string is non-empty (splitting `""` gives `[""]`). -/
def splitOnEq : List Char → List (List Char)
  | [] => [[]]
  | c :: cs =>
    let r := splitOnEq cs
    if c = '=' then [] :: r
    else
      match r with
      | h :: t => (c :: h) :: t
      | [] => [[c]]

/-- Rust `str::contains(pat)` for a fixed pattern: some suffix of the string
starts with the pattern. -/
def containsPat (pat : List Char) : List Char → Bool
  | [] => false
  | c :: cs => pat.isPrefixOf (c :: cs) || containsPat pat cs

/-- Rust `str::parse::<u16>()` (`u16::from_str`): an optional leading `+`,
then one or more ASCII digits, with the value bounded by `u16::MAX = 65535`;
anything else is a parse error (`none`). -/
def parseU16 (cs : List Char) : Option Nat :=
  let ds := match cs with
    | '+' :: rest => rest
    | _ => cs
  if ds = [] then none
  else if ds.all Char.isDigit then
    let v := ds.foldl (fun acc c => acc * 10 + (c.toNat - 48)) 0
    if v ≤ 65535 then some v else none
  else none

/-! ## Log Watcher: port handshake parsing (lib.rs, `run`, stdout arm) -/

/-- The literal handshake marker `SERVER_PORT=` searched for by
`out.contains("SERVER_PORT=")`. -/
def markerChars : List Char := "SERVER_PORT=".data

/-- The port extracted from one stdout line, exactly as the Rust stdout arm
computes it: if the line contains `SERVER_PORT=`, split the whole line on
`=`, take the final segment (`split('=').last()`, always present), trim it
and parse it as a `u16`; otherwise no port. `from_utf8_lossy` is total, so
the line is modelled as the decoded text. -/
def parsePortFromLine (out : String) : Option Nat :=
  if containsPat markerChars out.data then
    parseU16 (trimChars ((splitOnEq out.data).getLastD []))
  else none

/-- The event payload `PortPayload { port: u16 }` of lib.rs. -/
structure PortPayload where
  port : Nat
  deriving Repr, DecidableEq

/-- Supervisor-side mutable state: the Port Registry cell
(`Arc<Mutex<u16>>`, initialised to 0) and the Child Process Handle
(`Arc<Mutex<Option<Child>>>`, the child identified by its pid). -/
structure WatcherState where
  port : Nat
  child : Option Nat
  deriving Repr, DecidableEq

/-- Observable side effects of one watcher step, in program order: the Port
Registry write inside the mutex, and the `app_handle.emit("backend-port", ..)`
broadcast. -/
inductive WatcherAct where
  | writePort (p : Nat)
  | emitPort (p : Nat)
  deriving Repr, DecidableEq

/-- Effect of one action on the supervisor state: the registry write stores
the port; the broadcast does not change the state. -/
def applyAct (s : WatcherState) : WatcherAct → WatcherState
  | .writePort p => { s with port := p }
  | .emitPort _ => s

/-- Fold a trace of actions over a state, in order. -/
def applyActs (s : WatcherState) (tr : List WatcherAct) : WatcherState :=
  tr.foldl applyAct s

/-- The ordered effect trace of processing one stdout line: on a successful
parse the Rust code first overwrites the registry under the lock and then
emits the event; otherwise it does nothing. -/
def lineActs (out : String) : List WatcherAct :=
  match parsePortFromLine out with
  | some p => [WatcherAct.writePort p, WatcherAct.emitPort p]
  | none => []

/-- Processing of one stdout line: the resulting state and the effect trace. -/
def processStdoutLine (s : WatcherState) (out : String) :
    WatcherState × List WatcherAct :=
  (applyActs s (lineActs out), lineActs out)

/-- Exit status carried by `CommandEvent::Terminated` (`TerminatedPayload`). -/
structure TerminatedPayload where
  code : Option Int
  signal : Option Int
  deriving Repr, DecidableEq

/-- The stream events consumed by the watcher loop
(`tauri_plugin_shell::process::CommandEvent`); stdout/stderr lines carry
their (lossily decoded) text. The Rust `match` has a catch-all `_ => {}`
arm for any further variants; the four modelled kinds are the ones the loop
reacts to. -/
inductive CommandEvent where
  | stdout (line : String)
  | stderr (line : String)
  | error (err : String)
  | terminated (status : TerminatedPayload)
  deriving Repr, DecidableEq

/-- One iteration of the watcher loop: stdout lines are parsed for the
handshake, stderr lines and stream errors are logged only, and a terminated
event clears the Child Process Handle. -/
def processEvent (s : WatcherState) : CommandEvent → WatcherState × List WatcherAct
  | .stdout line => processStdoutLine s line
  | .stderr _ => (s, [])
  | .error _ => (s, [])
  | .terminated _ => ({ s with child := none }, [])

/-- The whole watcher loop over a finite stream of events, accumulating the
effect trace. -/
def runWatcher (s : WatcherState) : List CommandEvent → WatcherState × List WatcherAct
  | [] => (s, [])
  | ev :: evs =>
    ((runWatcher (processEvent s ev).1 evs).1,
      (processEvent s ev).2 ++ (runWatcher (processEvent s ev).1 evs).2)

/-- The payloads broadcast in an effect trace, in order. -/
def emittedPayloads (tr : List WatcherAct) : List PortPayload :=
  tr.filterMap fun a =>
    match a with
    | .emitPort p => some ⟨p⟩
    | _ => none

/-- The `get_backend_port` command: lock the registry and return the stored
value. -/
def get_backend_port (s : WatcherState) : Nat := s.port

/-- State at application setup: `run` initialises the registry cell to
`0u16` and the spawn stores the child handle (identified by its pid). -/
def initState (pid : Nat) : WatcherState := { port := 0, child := some pid }

/-! ## Clipboard Image Bridge (`copy_image_to_clipboard`) -/

/-- Rust `str::strip_prefix`: `some` of the remainder when the pattern is a
prefix, `none` otherwise. -/
def stripPat (pat cs : List Char) : Option (List Char) :=
  if pat.isPrefixOf cs then some (cs.drop pat.length) else none

/-- The characters of the URL scheme `file://localhost`. -/
def flhChars : List Char := "file://localhost".data

/-- The characters of the URL scheme `file://`. -/
def flChars : List Char := "file://".data

/-- Path normalization of `copy_image_to_clipboard`: strip a
`file://localhost` prefix if present, else strip a bare `file://` prefix if
present, else keep the (already trimmed) string unchanged. -/
def normalizePath (t : String) : String :=
  match stripPat flhChars t.data with
  | some p => String.mk p
  | none =>
    match stripPat flChars t.data with
    | some p => String.mk p
    | none => t

/-- Rust `Path::is_absolute` on the Unix family the code targets (the macOS
packaging fallback): the path has a root, i.e. starts with `/`. -/
def isAbsolutePath (p : String) : Bool :=
  match p.data with
  | '/' :: _ => true
  | _ => false

/-- Rust `PathBuf::join` with a relative right-hand side: push the component
after a separator, not doubling an existing trailing separator. -/
def joinPath (dir p : String) : String :=
  match dir.data.getLast? with
  | none => p
  | some '/' => dir ++ p
  | some _ => dir ++ "/" ++ p

/-- The decoded image handed to the clipboard:
`to_rgba8` width, height and raw byte buffer. -/
structure Image where
  width : Nat
  height : Nat
  rgba : List Nat
  deriving Repr, DecidableEq

/-- Environment of one `copy_image_to_clipboard` invocation: everything the
Rust function obtains from the OS or from `app`. Directory lookups are
`Option` (they are `Result`s in the source and skipped on `Err`); `fsRead`,
`decode`, `clipInit` and `clipSet` carry the error text interpolated into
the returned messages. `dispatchMainThread` is the result of
`run_on_main_thread`, and `recvSucceeds` is whether the one-shot channel
delivers the main-thread result (`rx.recv()`). -/
structure ClipEnv where
  appDataDir : Option String
  currentDir : Option String
  resourceDir : Option String
  pathExists : String → Bool
  fsRead : String → Except String (List Nat)
  decode : List Nat → Except String Image
  clipInit : Except String Unit
  clipSet : Image → Except String Unit
  dispatchMainThread : Except String Unit
  recvSucceeds : Bool

/-- External operations performed by one invocation, in order: filesystem
existence probes, the file read attempt, and the clipboard interaction on
the main thread. -/
inductive ClipOp where
  | checkExists (p : String)
  | readAttempt (p : String)
  | clipboardAccess
  deriving Repr, DecidableEq

/-- The candidate list of `copy_image_to_clipboard`: an absolute input is
the sole candidate; otherwise, in order, the input joined under the app
data directory, under the current working directory, under the resource
directory (each only when that directory resolved), and finally the input
as-is. -/
def buildCandidates (env : ClipEnv) (inputPath : String) : List String :=
  if isAbsolutePath inputPath then [inputPath]
  else
    (match env.appDataDir with
      | some d => [joinPath d inputPath]
      | none => []) ++
    (match env.currentDir with
      | some d => [joinPath d inputPath]
      | none => []) ++
    (match env.resourceDir with
      | some d => [joinPath d inputPath]
      | none => []) ++
    [inputPath]

/-- Rust `candidates.iter().find(|p| p.exists())` together with the trace of
existence probes it performs: the predicate is evaluated left to right and
stops at the first existing candidate. -/
def findExisting (env : ClipEnv) : List String → Option String × List ClipOp
  | [] => (none, [])
  | p :: ps =>
    if env.pathExists p then (some p, [ClipOp.checkExists p])
    else ((findExisting env ps).1, ClipOp.checkExists p :: (findExisting env ps).2)

/-- The selected file path:
`find(..).cloned().unwrap_or_else(|| candidates.first().cloned().unwrap())`.
The inner `unwrap` panics only when the list is empty, modelled by `none`. -/
def selectCandidate (env : ClipEnv) (cands : List String) : Option String :=
  match (findExisting env cands).1 with
  | some p => some p
  | none => cands.head?

/-- The whole `copy_image_to_clipboard` command: result value and ordered
trace of external operations. The image pipeline (`load_from_memory`,
`to_rgba8`, `dimensions`, `into_raw`) is folded into `env.decode`, whose
`Image` is exactly what `set_image` receives. The `none` branch of
`selectCandidate` models the `unwrap` panic on an empty candidate list and
is proved unreachable. -/
def copy_image_to_clipboard (env : ClipEnv) (path : String) :
    Except String Unit × List ClipOp :=
  let trimmed := String.mk (trimChars path.data)
  if trimmed.data = [] then (Except.error "path is empty", [])
  else
    let inputPath := normalizePath trimmed
    let candidates := buildCandidates env inputPath
    let probes := (findExisting env candidates).2
    match selectCandidate env candidates with
    | none => (Except.error "panic: no candidate", probes)
    | some filePath =>
      match env.fsRead filePath with
      | Except.error e =>
        (Except.error ("read file failed: " ++ e ++ " (" ++ filePath ++ ")"),
          probes ++ [ClipOp.readAttempt filePath])
      | Except.ok bytes =>
        match env.decode bytes with
        | Except.error e =>
          (Except.error ("decode image failed: " ++ e),
            probes ++ [ClipOp.readAttempt filePath])
        | Except.ok img =>
          match env.dispatchMainThread with
          | Except.error e =>
            (Except.error ("run_on_main_thread failed: " ++ e),
              probes ++ [ClipOp.readAttempt filePath])
          | Except.ok _ =>
            if env.recvSucceeds then
              match env.clipInit with
              | Except.error e =>
                (Except.error ("clipboard init failed: " ++ e),
                  probes ++ [ClipOp.readAttempt filePath, ClipOp.clipboardAccess])
              | Except.ok _ =>
                match env.clipSet img with
                | Except.error e =>
                  (Except.error ("clipboard set image failed: " ++ e),
                    probes ++ [ClipOp.readAttempt filePath, ClipOp.clipboardAccess])
                | Except.ok _ =>
                  (Except.ok (),
                    probes ++ [ClipOp.readAttempt filePath, ClipOp.clipboardAccess])
            else
              (Except.error "clipboard task aborted",
                probes ++ [ClipOp.readAttempt filePath])

/-- Spec-side reading of "the first candidate that exists on disk":
`FirstExisting ex l q` holds when `q` is the first element of `l` satisfying
`ex`. -/
inductive FirstExisting (ex : String → Bool) : List String → String → Prop
  | here {p : String} {ps : List String} : ex p = true → FirstExisting ex (p :: ps) p
  | there {p q : String} {ps : List String} :
      ex p = false → FirstExisting ex ps q → FirstExisting ex (p :: ps) q

/-- A concrete environment on which nothing exists on disk and every read
fails, used to evaluate the embedded command at concrete inputs. -/
def bareEnv : ClipEnv where
  appDataDir := some "/Users/u/Library/Application Support/app"
  currentDir := some "/cwd"
  resourceDir := some "/res"
  pathExists := fun _ => false
  fsRead := fun _ => Except.error "No such file or directory (os error 2)"
  decode := fun _ => Except.error "format not recognized"
  clipInit := Except.ok ()
  clipSet := fun _ => Except.ok ()
  dispatchMainThread := Except.ok ()
  recvSucceeds := true

/-! ## Helper lemmas -/

theorem stripPat_eq_some {pat s r : List Char} :
    stripPat pat s = some r ↔ s = pat ++ r := by
  unfold stripPat
  constructor
  · intro h
    split at h
    · next hp =>
      obtain ⟨t, ht⟩ := List.isPrefixOf_iff_prefix.mp hp
      injection h with h
      subst ht
      rw [← h, List.drop_left]
    · exact absurd h (by simp)
  · intro h
    subst h
    rw [if_pos (List.isPrefixOf_iff_prefix.mpr ⟨r, rfl⟩), List.drop_left]

theorem findExisting_of_firstExisting (env : ClipEnv) {l : List String} {q : String}
    (h : FirstExisting env.pathExists l q) : (findExisting env l).1 = some q := by
  induction h with
  | here hp => simp [findExisting, hp]
  | there hp _ ih => simp [findExisting, hp, ih]

theorem findExisting_none_of_all_absent (env : ClipEnv) {l : List String}
    (h : ∀ p ∈ l, env.pathExists p = false) : (findExisting env l).1 = none := by
  induction l with
  | nil => rfl
  | cons a l ih =>
    have ha := h a (List.mem_cons_self a l)
    simp only [findExisting, ha, Bool.false_eq_true, if_false]
    exact ih fun p hp => h p (List.mem_cons_of_mem _ hp)

theorem selectCandidate_some_of_ne_nil (env : ClipEnv) {cands : List String}
    (h : cands ≠ []) : ∃ q, selectCandidate env cands = some q := by
  unfold selectCandidate
  cases hf : (findExisting env cands).1 with
  | some p => exact ⟨p, rfl⟩
  | none =>
    cases cands with
    | nil => exact absurd rfl h
    | cons a l => exact ⟨a, rfl⟩

theorem runWatcher_port_zero (evs : List CommandEvent) :
    ∀ s : WatcherState, s.port = 0 →
      (∀ line, CommandEvent.stdout line ∈ evs → parsePortFromLine line = none) →
      ((runWatcher s evs).1).port = 0 := by
  induction evs with
  | nil =>
    intro s hs _
    simpa [runWatcher] using hs
  | cons ev evs ih =>
    intro s hs h
    have htail : ∀ line, CommandEvent.stdout line ∈ evs → parsePortFromLine line = none :=
      fun line hm => h line (List.mem_cons_of_mem _ hm)
    have hstep : ((processEvent s ev).1).port = 0 := by
      cases ev with
      | stdout line =>
        have hl := h line (List.mem_cons_self _ _)
        simpa [processEvent, processStdoutLine, lineActs, hl, applyActs] using hs
      | stderr l => simpa [processEvent] using hs
      | error e => simpa [processEvent] using hs
      | terminated st => simpa [processEvent] using hs
    simpa [runWatcher] using ih (processEvent s ev).1 hstep htail

/-! ## Claim theorems: Log Watcher and Port Registry -/

/-- C1: a stdout line that is exactly `SERVER_PORT=54321` parses to port
54321, and in general every successfully parsed marker line overwrites the
Port Registry with the parsed port and broadcasts exactly one port-handshake
event whose payload carries that port. -/
theorem marker_line_sets_registry_and_emits_once
    (s : WatcherState) (out : String) (p : Nat)
    (h : parsePortFromLine out = some p) :
    (processStdoutLine s out).1.port = p ∧
    emittedPayloads (processStdoutLine s out).2 = [⟨p⟩] ∧
    parsePortFromLine "SERVER_PORT=54321" = some 54321 := by
  refine ⟨?_, ?_, by decide⟩ <;>
    simp [processStdoutLine, lineActs, h, applyActs, applyAct, emittedPayloads]

theorem marker_line_sets_registry_and_emits_once_witness :
    (processStdoutLine (initState 1) "SERVER_PORT=54321").1.port = 54321 ∧
    emittedPayloads (processStdoutLine (initState 1) "SERVER_PORT=54321").2 = [⟨54321⟩] ∧
    parsePortFromLine "SERVER_PORT=54321" = some 54321 :=
  marker_line_sets_registry_and_emits_once (initState 1) "SERVER_PORT=54321" 54321 (by decide)

/-- C2, as stated, is false on the code: from a state whose registry holds
the nonzero port 54321 (child still alive), processing the stdout line
`SERVER_PORT=0` parses port 0 and overwrites the registry back to 0 — the
stdout arm has no guard against a zero port. -/
theorem zero_marker_line_resets_registry :
    ((⟨54321, some 1⟩ : WatcherState).port ≠ 0) ∧
    (processEvent ⟨54321, some 1⟩ (CommandEvent.stdout "SERVER_PORT=0")).1.port = 0 :=
  ⟨by decide, rfl⟩

/-- C2 (amended): 0 means "not yet known", and once the registry is nonzero
no event resets it to 0 except a stdout line whose final `=`-segment parses
as the port 0; every other event (any non-parsing or nonzero-parsing stdout
line, stderr, stream error, termination) leaves the registry nonzero. -/
theorem registry_nonzero_preserved
    (s : WatcherState) (ev : CommandEvent)
    (h0 : s.port ≠ 0)
    (hz : ∀ line, ev = CommandEvent.stdout line → parsePortFromLine line ≠ some 0) :
    (processEvent s ev).1.port ≠ 0 := by
  cases ev with
  | stdout line =>
    have hz' := hz line rfl
    cases hp : parsePortFromLine line with
    | none =>
      simpa [processEvent, processStdoutLine, lineActs, hp, applyActs] using h0
    | some p =>
      have hpne : p ≠ 0 := fun hzero => hz' (hzero ▸ hp)
      simpa [processEvent, processStdoutLine, lineActs, hp, applyActs, applyAct] using hpne
  | stderr l => simpa [processEvent] using h0
  | error e => simpa [processEvent] using h0
  | terminated st => simpa [processEvent] using h0

theorem registry_nonzero_preserved_witness :
    (processEvent ⟨54321, some 1⟩ (CommandEvent.stdout "some ordinary log line")).1.port ≠ 0 :=
  registry_nonzero_preserved ⟨54321, some 1⟩ (CommandEvent.stdout "some ordinary log line")
    (by decide)
    (by
      intro line hl
      injection hl with h
      subst h
      decide)

/-- C3: for every stdout line whose port segment parses, the effect trace
contains the Port Registry write strictly before the broadcast of the
corresponding port-handshake event, and at any point from the broadcast on,
a registry read (`get_backend_port`) returns the parsed port. -/
theorem registry_write_precedes_broadcast
    (s : WatcherState) (out : String) (p : Nat)
    (h : parsePortFromLine out = some p) :
    ∃ i j, i < j ∧
      (processStdoutLine s out).2.get? i = some (WatcherAct.writePort p) ∧
      (processStdoutLine s out).2.get? j = some (WatcherAct.emitPort p) ∧
      get_backend_port (applyActs s ((processStdoutLine s out).2.take j)) = p := by
  refine ⟨0, 1, Nat.zero_lt_one, ?_, ?_, ?_⟩ <;>
    simp [processStdoutLine, lineActs, h, applyActs, applyAct, get_backend_port]

theorem registry_write_precedes_broadcast_witness :
    ∃ i j, i < j ∧
      (processStdoutLine (initState 2) "SERVER_PORT=8080").2.get? i =
        some (WatcherAct.writePort 8080) ∧
      (processStdoutLine (initState 2) "SERVER_PORT=8080").2.get? j =
        some (WatcherAct.emitPort 8080) ∧
      get_backend_port
        (applyActs (initState 2)
          ((processStdoutLine (initState 2) "SERVER_PORT=8080").2.take j)) = 8080 :=
  registry_write_precedes_broadcast (initState 2) "SERVER_PORT=8080" 8080 (by decide)

/-- C4: a stdout line that does not contain the marker `SERVER_PORT=`, or
whose final `=`-separated segment does not parse as a `u16`, leaves the state
(and in particular the Port Registry) unchanged and produces no effect —
no registry write and no broadcast. -/
theorem non_marker_or_unparsable_line_is_noop
    (s : WatcherState) (out : String)
    (h : containsPat markerChars out.data = false ∨
      parseU16 (trimChars ((splitOnEq out.data).getLastD [])) = none) :
    processStdoutLine s out = (s, []) := by
  have hp : parsePortFromLine out = none := by
    unfold parsePortFromLine
    rcases h with h | h
    · simp [h]
    · split
      · exact h
      · rfl
  simp [processStdoutLine, lineActs, hp, applyActs]

theorem non_marker_or_unparsable_line_is_noop_witness :
    processStdoutLine ⟨0, some 3⟩ "SERVER_PORT=notanumber" = (⟨0, some 3⟩, []) :=
  non_marker_or_unparsable_line_is_noop ⟨0, some 3⟩ "SERVER_PORT=notanumber"
    (Or.inr (by decide))

/-- C8: reading the backend port before any handshake line has been
processed returns 0, the initial value `run` stores in the registry cell;
this holds for the fresh state and stays true across any stream of events
none of whose stdout lines parses to a port. -/
theorem port_read_before_handshake_is_zero
    (pid : Nat) (evs : List CommandEvent)
    (h : ∀ line, CommandEvent.stdout line ∈ evs → parsePortFromLine line = none) :
    get_backend_port (runWatcher (initState pid) evs).1 = 0 :=
  runWatcher_port_zero evs (initState pid) rfl h

theorem port_read_before_handshake_is_zero_witness :
    get_backend_port
      (runWatcher (initState 7)
        [CommandEvent.stderr "boot", CommandEvent.stdout "listening"]).1 = 0 :=
  port_read_before_handshake_is_zero 7
    [CommandEvent.stderr "boot", CommandEvent.stdout "listening"]
    (by
      intro line hm
      rcases List.mem_cons.mp hm with h | h
      · cases h
      · rcases List.mem_cons.mp h with h | h
        · cases h
          decide
        · cases h)

/-- C9: a process-terminated stream event clears the Child Process Handle
to `none`, and processing a second terminated event leaves the state
unchanged: the clearing is idempotent. -/
theorem terminated_clears_child_idempotently
    (s : WatcherState) (st st2 : TerminatedPayload) :
    (processEvent s (CommandEvent.terminated st)).1.child = none ∧
    (processEvent (processEvent s (CommandEvent.terminated st)).1
        (CommandEvent.terminated st2)).1 =
      (processEvent s (CommandEvent.terminated st)).1 :=
  ⟨rfl, rfl⟩

/-! ## Claim theorems: Clipboard Image Bridge -/

/-- C5: with the three directory lookups resolving, an absolute normalized
path is the sole candidate; a relative one yields, in order, the app-data
join, the working-directory join, the resource-directory join, and the path
as-is. The first candidate existing on disk is selected; when none exists
the head of the list is selected anyway, and the failing read then yields an
error message naming that candidate's concrete path. -/
theorem candidate_resolution_and_read_error
    (env : ClipEnv) (path np a c r e q : String)
    (hnp : np = normalizePath (String.mk (trimChars path.data)))
    (hne : trimChars path.data ≠ [])
    (ha : env.appDataDir = some a) (hc : env.currentDir = some c)
    (hr : env.resourceDir = some r) :
    (isAbsolutePath np = true → buildCandidates env np = [np]) ∧
    (isAbsolutePath np = false →
      buildCandidates env np = [joinPath a np, joinPath c np, joinPath r np, np]) ∧
    (FirstExisting env.pathExists (buildCandidates env np) q →
      selectCandidate env (buildCandidates env np) = some q) ∧
    ((∀ p ∈ buildCandidates env np, env.pathExists p = false) →
      selectCandidate env (buildCandidates env np) = (buildCandidates env np).head?) ∧
    ((∀ p ∈ buildCandidates env np, env.pathExists p = false) →
      (buildCandidates env np).head? = some q →
      env.fsRead q = Except.error e →
      (copy_image_to_clipboard env path).1 =
        Except.error ("read file failed: " ++ e ++ " (" ++ q ++ ")")) := by
  subst hnp
  refine ⟨?_, ?_, ?_, ?_, ?_⟩
  · intro habs
    simp [buildCandidates, habs]
  · intro habs
    simp [buildCandidates, habs, ha, hc, hr]
  · intro hfe
    simp [selectCandidate, findExisting_of_firstExisting env hfe]
  · intro hall
    simp [selectCandidate, findExisting_none_of_all_absent env hall]
  · intro hall hhead hread
    have hsel :
        selectCandidate env
          (buildCandidates env (normalizePath (String.mk (trimChars path.data)))) =
          some q := by
      rw [selectCandidate, findExisting_none_of_all_absent env hall, hhead]
    unfold copy_image_to_clipboard
    simp only [hne, if_neg (by simpa using hne)]
    simp [hsel, hread]

theorem candidate_resolution_and_read_error_witness :
    (copy_image_to_clipboard bareEnv "storage/a.jpg").1 =
      Except.error
        "read file failed: No such file or directory (os error 2) (/Users/u/Library/Application Support/app/storage/a.jpg)" :=
  (candidate_resolution_and_read_error bareEnv "storage/a.jpg" "storage/a.jpg"
      "/Users/u/Library/Application Support/app" "/cwd" "/res"
      "No such file or directory (os error 2)"
      "/Users/u/Library/Application Support/app/storage/a.jpg"
      (by decide) (by decide) rfl rfl rfl).2.2.2.2
    (fun p _ => rfl) rfl rfl

/-- C6: normalization strips a `file://localhost` prefix when present, else
a bare `file://` prefix when present, else leaves the trimmed input
unchanged; in particular `file://localhost/tmp/x.png` normalizes to
`/tmp/x.png`. -/
theorem normalize_strips_file_url_schemes (t : String) :
    (∀ rest, t.data = flhChars ++ rest → (normalizePath t).data = rest) ∧
    ((∀ rest, t.data ≠ flhChars ++ rest) →
      ∀ rest, t.data = flChars ++ rest → (normalizePath t).data = rest) ∧
    ((∀ rest, t.data ≠ flChars ++ rest) → normalizePath t = t) ∧
    normalizePath "file://localhost/tmp/x.png" = "/tmp/x.png" := by
  refine ⟨?_, ?_, ?_, by decide⟩
  · intro rest h
    rw [normalizePath, stripPat_eq_some.mpr h]
  · intro hno rest h
    have h1 : stripPat flhChars t.data = none := by
      cases hf : stripPat flhChars t.data with
      | none => rfl
      | some p => exact absurd (stripPat_eq_some.mp hf) (hno p)
    rw [normalizePath, h1, stripPat_eq_some.mpr h]
  · intro hno
    have h1 : stripPat flhChars t.data = none := by
      cases hf : stripPat flhChars t.data with
      | none => rfl
      | some p =>
        have := stripPat_eq_some.mp hf
        exact absurd (by rw [this]; rfl) (hno ("localhost".data ++ p))
    have h2 : stripPat flChars t.data = none := by
      cases hf : stripPat flChars t.data with
      | none => rfl
      | some p => exact absurd (stripPat_eq_some.mp hf) (hno p)
    rw [normalizePath, h1, h2]

theorem normalize_strips_file_url_schemes_witness :
    (normalizePath "file://localhost/tmp/x.png").data = "/tmp/x.png".data :=
  (normalize_strips_file_url_schemes "file://localhost/tmp/x.png").1
    "/tmp/x.png".data (by decide)

/-- C7: an input whose trimmed form is empty is rejected with the error
`path is empty`, with an empty operation trace: no existence probe, no file
read and no clipboard interaction. -/
theorem empty_path_rejected_without_effects
    (env : ClipEnv) (path : String) (h : trimChars path.data = []) :
    copy_image_to_clipboard env path = (Except.error "path is empty", []) := by
  unfold copy_image_to_clipboard
  simp [h]

theorem empty_path_rejected_without_effects_witness :
    copy_image_to_clipboard bareEnv "  \t " = (Except.error "path is empty", []) :=
  empty_path_rejected_without_effects bareEnv "  \t " (by decide)

/-- C10: for any non-empty normalized input the candidate list contains the
input itself and is non-empty, so the fallback selection of the first
candidate is always defined — the `unwrap` in the source cannot panic. -/
theorem candidate_list_nonempty_selection_defined
    (env : ClipEnv) (np : String) (h : np ≠ "") :
    np ∈ buildCandidates env np ∧
    buildCandidates env np ≠ [] ∧
    ∃ q, selectCandidate env (buildCandidates env np) = some q := by
  have hmem : np ∈ buildCandidates env np := by
    unfold buildCandidates
    split
    · exact List.mem_singleton.mpr rfl
    · simp
  have hne : buildCandidates env np ≠ [] := fun hnil => by
    rw [hnil] at hmem
    exact List.not_mem_nil np hmem
  exact ⟨hmem, hne, selectCandidate_some_of_ne_nil env hne⟩

theorem candidate_list_nonempty_selection_defined_witness :
    "storage/a.jpg" ∈ buildCandidates bareEnv "storage/a.jpg" ∧
    buildCandidates bareEnv "storage/a.jpg" ≠ [] ∧
    ∃ q, selectCandidate bareEnv (buildCandidates bareEnv "storage/a.jpg") = some q :=
  candidate_list_nonempty_selection_defined bareEnv "storage/a.jpg" (by decide)

end NanoBanana
